import Mathlib

/-!
Verification of the FCM sample server (`server/server.py`).

The script builds one of three JSON payloads (common, override, custom),
POSTs it to the FCM v1 endpoint with a bearer token, and prints the
outcome.  We embed the JSON values produced by the builders, the request
assembled by the transport, and the dispatch logic of `main` as pure Lean
functions, and prove the specification's testable properties about them.

External library calls are modelled as parameters:
`json.loads` (the standard-library parser) is an oracle
`String → Except String Json`, the OAuth token is a `String` parameter,
and the HTTP round-trip (`requests.post`) is an oracle
`HttpRequest → HttpResponse`.
-/

namespace FcmSample

/-- JSON values, as produced by Python dict/list/str/int/bool/None literals
and `json.loads`.  Object fields keep insertion order, matching Python
dicts; numbers are modelled as integers (the only numeric literal in the
program is `1`). -/
inductive Json where
  | null : Json
  | bool : Bool → Json
  | num : Int → Json
  | str : String → Json
  | arr : List Json → Json
  | obj : List (String × Json) → Json

/-- Python truthiness (`if link:`) on JSON values: `None`, `False`, `0`,
`""`, `[]` and `\x7b\x7d` are falsy, everything else truthy. -/
def Json.isTruthy : Json → Bool
  | .null => false
  | .bool b => b
  | .num n => n != 0
  | .str s => s != ""
  | .arr xs => !xs.isEmpty
  | .obj fs => !fs.isEmpty

/-- Field lookup on a JSON object (first occurrence); `none` on non-objects
or missing keys. -/
def Json.lookupKey : Json → String → Option Json
  | .obj fs, k => fs.lookup k
  | _, _ => none

/-- `j.getKey k` is the field `k` of object `j`, or `null` when absent:
the shape `dict.get` gives in `main`. -/
def Json.getKey (j : Json) (k : String) : Json :=
  (j.lookupKey k).getD Json.null

/-- Whether object `j` has field `k` at its top level. -/
def Json.hasKey (j : Json) (k : String) : Bool :=
  (j.lookupKey k).isSome

mutual

/-- Whether the key `k` occurs as an object field anywhere inside `j`. -/
def Json.hasKeyDeep : Json → String → Bool
  | .obj fs, k => hasKeyDeepFields fs k
  | .arr xs, k => hasKeyDeepList xs k
  | _, _ => false

def hasKeyDeepFields : List (String × Json) → String → Bool
  | [], _ => false
  | (k2, v) :: rest, k => k2 == k || Json.hasKeyDeep v k || hasKeyDeepFields rest k

def hasKeyDeepList : List Json → String → Bool
  | [], _ => false
  | x :: rest, k => Json.hasKeyDeep x k || hasKeyDeepList rest k

end

/-- Lower hex digit for `\uXXXX` escapes. -/
def hexDigit (n : Nat) : Char :=
  if n < 10 then Char.ofNat (48 + n) else Char.ofNat (87 + n)

/-- Four-digit hex rendering of a code point (Basic Multilingual Plane). -/
def hex4 (n : Nat) : String :=
  String.mk [hexDigit ((n / 4096) % 16), hexDigit ((n / 256) % 16),
    hexDigit ((n / 16) % 16), hexDigit (n % 16)]

/-- One character of `json.dumps` string output with the default
`ensure_ascii=True`: quote, backslash and common controls get short
escapes, other controls and non-ASCII get `\uXXXX`. -/
def escapeJsonChar (c : Char) : String :=
  if c = '"' then "\\\""
  else if c = '\\' then "\\\\"
  else if c = '\n' then "\\n"
  else if c = '\t' then "\\t"
  else if c = '\r' then "\\r"
  else if c.toNat < 32 || c.toNat > 126 then "\\u" ++ hex4 c.toNat
  else String.singleton c

/-- `json.dumps` rendering of a string literal. -/
def quoteJsonString (s : String) : String :=
  "\"" ++ String.join (s.data.map escapeJsonChar) ++ "\""

mutual

/-- Model of `json.dumps` with default separators: compact `", "` between
items and `": "` after keys. -/
def Json.dumps : Json → String
  | .null => "null"
  | .bool true => "true"
  | .bool false => "false"
  | .num n => toString n
  | .str s => quoteJsonString s
  | .arr xs => "[" ++ dumpsList xs ++ "]"
  | .obj fs => "\x7b" ++ dumpsFields fs ++ "\x7d"

def dumpsList : List Json → String
  | [] => ""
  | [x] => Json.dumps x
  | x :: rest => Json.dumps x ++ ", " ++ dumpsList rest

def dumpsFields : List (String × Json) → String
  | [] => ""
  | [(k, v)] => quoteJsonString k ++ ": " ++ Json.dumps v
  | (k, v) :: rest => quoteJsonString k ++ ": " ++ Json.dumps v ++ ", " ++ dumpsFields rest

end

/-- `BASE_URL` constant of the script. -/
def BASE_URL : String := "https://fcm.googleapis.com"

/-- `FCM_ENDPOINT`, built from the `project_id` read out of the
service-account file (the file read is modelled by passing the id in). -/
def FCM_ENDPOINT (project_id : String) : String :=
  "v1/projects/" ++ project_id ++ "/messages:send"

/-- `FCM_URL = BASE_URL + '/' + FCM_ENDPOINT`. -/
def FCM_URL (project_id : String) : String :=
  BASE_URL ++ "/" ++ FCM_ENDPOINT project_id

/-- `_build_common_message()`: fixed topic `news`, fixed title and body. -/
def _build_common_message : Json :=
  Json.obj [("message", Json.obj
    [("topic", Json.str "news"),
     ("notification", Json.obj
       [("title", Json.str "FCM Notification"),
        ("body", Json.str "Notification from FCM")])])]

/-- The `apns_override` dict of `_build_override_message`. -/
def apns_override : Json :=
  Json.obj
    [("payload", Json.obj [("aps", Json.obj [("badge", Json.num 1)])]),
     ("headers", Json.obj [("apns-priority", Json.str "10")])]

/-- The `android_override` dict of `_build_override_message`. -/
def android_override : Json :=
  Json.obj [("notification", Json.obj
    [("click_action", Json.str "android.intent.action.MAIN")])]

/-- Fields of object `j`, `[]` when `j` is not an object; used to express
"set key on the nested dict" as Python mutation does. -/
def Json.objFields : Json → List (String × Json)
  | .obj fs => fs
  | _ => []

/-- Setting `d[k] = v` on a Python dict: replaces the value in place when
`k` is present, otherwise appends the new key at the end. -/
def setField (fs : List (String × Json)) (k : String) (v : Json) :
    List (String × Json) :=
  if fs.any (fun p => p.1 == k) then
    fs.map (fun p => if p.1 == k then (k, v) else p)
  else fs ++ [(k, v)]

/-- `_build_override_message()`: the common message with
`message['android']` and `message['apns']` assigned afterwards. -/
def _build_override_message : Json :=
  let fcm_message := _build_common_message
  let inner := fcm_message.getKey "message"
  Json.obj [("message", Json.obj
    (setField (setField inner.objFields "android" android_override)
      "apns" apns_override))]

/-- `_build_common_custom_message(title, body, topic, data, link, icon)`:
the literal dict, then `click_action` and `icon` added to the nested
notification dict only when `link` / `icon` are truthy. -/
def _build_common_custom_message
    (title body topic data link icon : Json) : Json :=
  let notif0 : List (String × Json) := [("title", title), ("body", body)]
  let notif1 := if link.isTruthy then setField notif0 "click_action" link else notif0
  let notif2 := if icon.isTruthy then setField notif1 "icon" icon else notif1
  Json.obj [("message", Json.obj
    [("topic", topic),
     ("notification", Json.obj notif2),
     ("data", data),
     ("delivery_receipt_requested", Json.bool true)])]

/-- The HTTP request assembled by `requests.post(FCM_URL, data=..., headers=...)`. -/
structure HttpRequest where
  method : String
  url : String
  body : String
  headers : List (String × String)
deriving DecidableEq, Repr

/-- The fields of the `requests` response object that the script reads. -/
structure HttpResponse where
  status_code : Nat
  text : String
deriving DecidableEq, Repr

/-- One `print(...)` call: either a plain string or
`json.dumps(m, indent=2)` of a payload. -/
inductive OutEvent where
  | line : String → OutEvent
  | jsonDump : Json → OutEvent

/-- Result of `_send_fcm_message`: the request handed to `requests.post`
and the lines printed afterwards. -/
structure SendResult where
  request : HttpRequest
  output : List OutEvent

/-- `_send_fcm_message(fcm_message)`.  The access token returned by
`_get_access_token()` is the parameter `token`; the network round-trip is
the oracle `respond`.  Note the literal `Content-Type` value from the
source: `'application/json; UTF-8'`. -/
def _send_fcm_message (project_id token : String)
    (respond : HttpRequest → HttpResponse) (fcm_message : Json) : SendResult :=
  let headers : List (String × String) :=
    [("Authorization", "Bearer " ++ token),
     ("Content-Type", "application/json; UTF-8")]
  let req : HttpRequest :=
    { method := "POST", url := FCM_URL project_id,
      body := Json.dumps fcm_message, headers := headers }
  let resp := respond req
  let out : List OutEvent :=
    if resp.status_code = 200 then
      [.line "Message sent to Firebase for delivery, response:", .line resp.text]
    else
      [.line "Unable to send message to Firebase", .line resp.text]
  ⟨req, out⟩

/-- Result of one run of `main`: everything printed, every request sent,
and `error = some e` when an uncaught exception `e` terminates the run
(`error = none` is a normal exit with code 0). -/
structure RunResult where
  output : List OutEvent
  sent : List HttpRequest
  error : Option String

/-- The usage text printed when `--message` is absent or empty (one
`print` of a triple-quoted string). -/
def usageText : String :=
  "Invalid command. Please use one of the following commands:\npython messaging.py --message=common-message\npython messaging.py --message=override-message"

/-- `message_params.get(k)` on the parsed dict: the value when present,
`None` (here `Json.null`) when absent. -/
def dictGet (fields : List (String × Json)) (k : String) : Json :=
  (fields.lookup k).getD Json.null

/-- `main()`.  `argsMessage` is `args.message` (`none` when the flag is
absent); `loads` is the `json.loads` oracle; `token`, `project_id` and
`respond` parameterise the token exchange, the credential file and the
network as above.  A parsed value that is not a JSON object makes
`message_params.get` raise, modelled as a fatal `AttributeError`. -/
def main (argsMessage : Option String) (loads : String → Except String Json)
    (token project_id : String) (respond : HttpRequest → HttpResponse) :
    RunResult :=
  match argsMessage with
  | none => ⟨[.line usageText], [], none⟩
  | some s =>
    if s = "" then ⟨[.line usageText], [], none⟩
    else if s = "common-message" then
      let common_message := _build_common_message
      let r := _send_fcm_message project_id token respond common_message
      ⟨[.line "FCM request body for message using common notification object:",
        .jsonDump common_message] ++ r.output, [r.request], none⟩
    else if s = "override-message" then
      let override_message := _build_override_message
      let r := _send_fcm_message project_id token respond override_message
      ⟨[.line "FCM request body for override message:",
        .jsonDump override_message] ++ r.output, [r.request], none⟩
    else
      match loads s with
      | .error e => ⟨[.line "Send custom message."], [], some e⟩
      | .ok (Json.obj fields) =>
        let common_message := _build_common_custom_message
          (dictGet fields "title") (dictGet fields "body")
          (dictGet fields "topic") (dictGet fields "data")
          (dictGet fields "link") (dictGet fields "icon")
        let r := _send_fcm_message project_id token respond common_message
        ⟨[.line "Send custom message.",
          .line "FCM request body for message using common notification object:",
          .jsonDump common_message] ++ r.output, [r.request], none⟩
      | .ok _ => ⟨[.line "Send custom message."], [], some "AttributeError"⟩

/-- Concrete `json.loads` oracle for the input `"\x7b\x7d"`: the empty
JSON object, as `json.loads` returns on that string. -/
def loadsEmptyObj : String → Except String Json :=
  fun _ => Except.ok (Json.obj [])

/-- Concrete `json.loads` oracle for a malformed input such as
`"not json"`: the parse error `json.loads` raises there. -/
def loadsFail : String → Except String Json :=
  fun _ => Except.error "Expecting value: line 1 column 1 (char 0)"

/-- Concrete network oracle: every request gets HTTP 200 with body
`resp-body`. -/
def respond200 : HttpRequest → HttpResponse :=
  fun _ => ⟨200, "resp-body"⟩

/-- Concrete network oracle: every request gets HTTP 403 with body
`err-body`. -/
def respond403 : HttpRequest → HttpResponse :=
  fun _ => ⟨403, "err-body"⟩

/-- The spec's envelope invariant, stated from its words: the outer object
is exactly `\x7b "message": ... \x7d` and the inner object has a `topic`
field. -/
def isMessageEnvelope (j : Json) : Bool :=
  match j with
  | Json.obj [("message", inner)] => inner.hasKey "topic"
  | _ => false

/-- C1: the custom builder on title `T`, body `B`, topic `promo`, data
`\x7b"k":"v"\x7d`, link `https://x`, icon `ic_x` yields exactly the
claimed envelope, with `delivery_receipt_requested = true`; the other two
variants never set that key. -/
theorem custom_message_all_fields_exact :
    _build_common_custom_message (Json.str "T") (Json.str "B")
      (Json.str "promo") (Json.obj [("k", Json.str "v")])
      (Json.str "https://x") (Json.str "ic_x") =
      Json.obj [("message", Json.obj
        [("topic", Json.str "promo"),
         ("notification", Json.obj
           [("title", Json.str "T"), ("body", Json.str "B"),
            ("click_action", Json.str "https://x"),
            ("icon", Json.str "ic_x")]),
         ("data", Json.obj [("k", Json.str "v")]),
         ("delivery_receipt_requested", Json.bool true)])] ∧
    _build_common_message.hasKeyDeep "delivery_receipt_requested" = false ∧
    _build_override_message.hasKeyDeep "delivery_receipt_requested" = false :=
  ⟨rfl, rfl, rfl⟩

/-- C2: the override builder's output is the common builder's `message`
object with its fields unchanged, plus exactly the `android` block setting
`notification.click_action` to `android.intent.action.MAIN` and the
`apns` block with `payload.aps.badge = 1` and header
`apns-priority = "10"`. -/
theorem override_extends_common_exactly :
    _build_override_message =
      Json.obj [("message", Json.obj
        ((_build_common_message.getKey "message").objFields ++
          [("android", Json.obj [("notification", Json.obj
             [("click_action", Json.str "android.intent.action.MAIN")])]),
           ("apns", Json.obj
             [("payload", Json.obj [("aps", Json.obj [("badge", Json.num 1)])]),
              ("headers", Json.obj [("apns-priority", Json.str "10")])])]))] :=
  rfl

/-- C3: the common builder's output has `message.topic = "news"` and no
`android`, `apns` or `data` key anywhere in the envelope. -/
theorem common_topic_news_no_platform_keys :
    (_build_common_message.getKey "message").getKey "topic" = Json.str "news" ∧
    _build_common_message.hasKeyDeep "android" = false ∧
    _build_common_message.hasKeyDeep "apns" = false ∧
    _build_common_message.hasKeyDeep "data" = false :=
  ⟨rfl, rfl, rfl, rfl⟩

/-- C6 (amended): the transport serializes the payload with `json.dumps`
and POSTs it to the FCM URL with exactly the headers
`Authorization: Bearer \x7btoken\x7d` and
`Content-Type: application/json; UTF-8` (no `charset=` parameter), for
every payload and token. -/
theorem transport_request_shape (project_id token : String)
    (respond : HttpRequest → HttpResponse) (payload : Json) :
    (_send_fcm_message project_id token respond payload).request =
      { method := "POST", url := FCM_URL project_id,
        body := Json.dumps payload,
        headers := [("Authorization", "Bearer " ++ token),
                    ("Content-Type", "application/json; UTF-8")] } :=
  rfl

/-- C6 counterexample: on a concrete send, the `Content-Type` header is
not `application/json; charset=UTF-8` as the claim states (the source
sets `application/json; UTF-8`). -/
theorem content_type_header_has_no_charset :
    ((_send_fcm_message "pid" "tok" respond200 _build_common_message).request.headers.lookup
        "Content-Type") ≠ some "application/json; charset=UTF-8" := by
  decide

/-- C9: every builder variant, on every input, produces an outer envelope
that is exactly a one-field `message` object whose inner object has a
`topic` field. -/
theorem all_variants_message_envelope :
    isMessageEnvelope _build_common_message = true ∧
    isMessageEnvelope _build_override_message = true ∧
    ∀ title body topic data link icon,
      isMessageEnvelope
        (_build_common_custom_message title body topic data link icon) = true :=
  ⟨rfl, rfl, fun _ _ _ _ _ _ => rfl⟩

/-- C4: two independent guarantees — whenever `link` is omitted (`None`
after `dict.get`) or null or empty, the built notification has no
`click_action` key at all, whatever `icon` is; and whenever `icon` is
omitted/null/empty, there is no `icon` key, whatever `link` is. -/
theorem absent_link_icon_keys_omitted
    (title body topic data link icon : Json) :
    ((link = Json.null ∨ link = Json.str "") →
      (((_build_common_custom_message title body topic data link icon).getKey
          "message").getKey "notification").hasKey "click_action" = false) ∧
    ((icon = Json.null ∨ icon = Json.str "") →
      (((_build_common_custom_message title body topic data link icon).getKey
          "message").getKey "notification").hasKey "icon" = false) := by
  constructor
  · intro hlink
    have hl : link.isTruthy = false := by
      rcases hlink with h | h <;> rw [h] <;> rfl
    cases hi : icon.isTruthy <;>
      simp [_build_common_custom_message, hl, hi, setField, Json.getKey,
        Json.lookupKey, Json.hasKey, List.lookup]
  · intro hicon
    have hi : icon.isTruthy = false := by
      rcases hicon with h | h <;> rw [h] <;> rfl
    cases hl : link.isTruthy <;>
      simp [_build_common_custom_message, hl, hi, setField, Json.getKey,
        Json.lookupKey, Json.hasKey, List.lookup]

/-- C4 witness: with `link = null` but `icon = "ic_x"` present, no
`click_action` key appears; with `link = "https://x"` present but
`icon = null`, no `icon` key appears. -/
theorem absent_link_icon_keys_omitted_witness :
    (((_build_common_custom_message (Json.str "T") (Json.str "B")
        (Json.str "promo") Json.null Json.null (Json.str "ic_x")).getKey
        "message").getKey "notification").hasKey "click_action" = false ∧
    (((_build_common_custom_message (Json.str "T") (Json.str "B")
        (Json.str "promo") Json.null (Json.str "https://x") Json.null).getKey
        "message").getKey "notification").hasKey "icon" = false :=
  ⟨(absent_link_icon_keys_omitted (Json.str "T") (Json.str "B")
      (Json.str "promo") Json.null Json.null (Json.str "ic_x")).1
      (Or.inl rfl),
   (absent_link_icon_keys_omitted (Json.str "T") (Json.str "B")
      (Json.str "promo") Json.null (Json.str "https://x") Json.null).2
      (Or.inl rfl)⟩

/-- C7: on status 200 the transport prints the success line then the raw
response body, on any other status the failure line then the raw body;
`main` still exits normally (`error = none`) and sends exactly once (no
retry), whatever the status. -/
theorem send_outcome_printed_exit_normal (project_id token : String)
    (respond : HttpRequest → HttpResponse) (payload : Json)
    (loads : String → Except String Json) :
    ((respond (_send_fcm_message project_id token respond payload).request).status_code = 200 →
      (_send_fcm_message project_id token respond payload).output =
        [OutEvent.line "Message sent to Firebase for delivery, response:",
         OutEvent.line (respond (_send_fcm_message project_id token respond payload).request).text]) ∧
    ((respond (_send_fcm_message project_id token respond payload).request).status_code ≠ 200 →
      (_send_fcm_message project_id token respond payload).output =
        [OutEvent.line "Unable to send message to Firebase",
         OutEvent.line (respond (_send_fcm_message project_id token respond payload).request).text]) ∧
    (main (some "common-message") loads token project_id respond).error = none ∧
    (main (some "common-message") loads token project_id respond).sent.length = 1 := by
  refine ⟨fun h => ?_, fun h => ?_, rfl, rfl⟩ <;>
  · simp only [_send_fcm_message] at h ⊢
    simp [h]

/-- C7 witness: with the concrete 200 oracle the success line and body
are printed, and with the 403 oracle `main` still exits normally. -/
theorem send_outcome_printed_exit_normal_witness :
    (_send_fcm_message "pid" "tok" respond200 _build_common_message).output =
      [OutEvent.line "Message sent to Firebase for delivery, response:",
       OutEvent.line "resp-body"] ∧
    (main (some "common-message") loadsEmptyObj "tok" "pid" respond403).error = none :=
  ⟨(send_outcome_printed_exit_normal "pid" "tok" respond200
      _build_common_message loadsEmptyObj).1 rfl,
   (send_outcome_printed_exit_normal "pid" "tok" respond403
      _build_common_message loadsEmptyObj).2.2.1⟩

/-- C8: a custom invocation whose argument `json.loads` rejects ends with
the parse error propagated and no request sent. -/
theorem malformed_custom_json_fatal_no_send
    (s e : String) (loads : String → Except String Json)
    (token project_id : String) (respond : HttpRequest → HttpResponse)
    (hne : s ≠ "") (hc : s ≠ "common-message") (ho : s ≠ "override-message")
    (hp : loads s = Except.error e) :
    (main (some s) loads token project_id respond).error = some e ∧
    (main (some s) loads token project_id respond).sent = [] := by
  simp [main, hne, hc, ho, hp]

/-- C8 witness: the invocation `--message="not json"` with the concrete
failing parse oracle propagates the parse error and sends nothing. -/
theorem malformed_custom_json_fatal_no_send_witness :
    (main (some "not json") loadsFail "tok" "pid" respond200).error =
      some "Expecting value: line 1 column 1 (char 0)" ∧
    (main (some "not json") loadsFail "tok" "pid" respond200).sent = [] :=
  malformed_custom_json_fatal_no_send "not json"
    "Expecting value: line 1 column 1 (char 0)" loadsFail "tok" "pid"
    respond200 (by decide) (by decide) (by decide) rfl

/-- C10: on the custom path, a parameter object that lacks `title`,
`body`, `topic` or `data` yields `None` from `dict.get`, and the builder
keeps those four keys present, each holding exactly the `dict.get` result
(hence a null value when the key was omitted) — unlike `link`/`icon`,
whose keys are dropped when `dict.get` gives `None`; no validation
intervenes — the run exits normally and the payload built from the `get`
results is sent. -/
theorem omitted_custom_fields_kept_as_null
    (fields : List (String × Json)) (s token project_id : String)
    (loads : String → Except String Json) (respond : HttpRequest → HttpResponse)
    (hne : s ≠ "") (hc : s ≠ "common-message") (ho : s ≠ "override-message")
    (hp : loads s = Except.ok (Json.obj fields)) :
    (∀ k, fields.lookup k = none → dictGet fields k = Json.null) ∧
    (∀ title body topic data link icon,
      ((_build_common_custom_message title body topic data link icon).getKey
          "message").lookupKey "topic" = some topic ∧
      ((_build_common_custom_message title body topic data link icon).getKey
          "message").lookupKey "data" = some data ∧
      (((_build_common_custom_message title body topic data link icon).getKey
          "message").getKey "notification").lookupKey "title" = some title ∧
      (((_build_common_custom_message title body topic data link icon).getKey
          "message").getKey "notification").lookupKey "body" = some body) ∧
    (∀ title body topic data,
      (((_build_common_custom_message title body topic data Json.null
          Json.null).getKey "message").getKey "notification").hasKey
          "click_action" = false ∧
      (((_build_common_custom_message title body topic data Json.null
          Json.null).getKey "message").getKey "notification").hasKey
          "icon" = false) ∧
    (main (some s) loads token project_id respond).error = none ∧
    (main (some s) loads token project_id respond).sent =
      [(_send_fcm_message project_id token respond
          (_build_common_custom_message (dictGet fields "title")
            (dictGet fields "body") (dictGet fields "topic")
            (dictGet fields "data") (dictGet fields "link")
            (dictGet fields "icon"))).request] := by
  refine ⟨fun k hk => ?_, fun title body topic data link icon => ?_,
    fun title body topic data => ⟨rfl, rfl⟩, ?_, ?_⟩
  · simp [dictGet, hk]
  · refine ⟨rfl, rfl, ?_, ?_⟩ <;>
    · cases hl : link.isTruthy <;> cases hi : icon.isTruthy <;>
        simp [_build_common_custom_message, hl, hi, setField, Json.getKey,
          Json.lookupKey, List.lookup]
  · simp [main, hne, hc, ho, hp]
  · simp [main, hne, hc, ho, hp]

/-- C10 witness: with the concrete empty parameter object, `dict.get`
gives null for `topic`, the null-filled payload keeps the `topic` key
holding a null value, and the run still exits normally. -/
theorem omitted_custom_fields_kept_as_null_witness :
    dictGet ([] : List (String × Json)) "topic" = Json.null ∧
    ((_build_common_custom_message Json.null Json.null Json.null Json.null
        Json.null Json.null).getKey "message").lookupKey "topic" =
      some Json.null ∧
    (main (some "\x7b\x7d") loadsEmptyObj "tok" "pid" respond200).error = none :=
  ⟨(omitted_custom_fields_kept_as_null [] "\x7b\x7d" "tok" "pid"
      loadsEmptyObj respond200 (by decide) (by decide) (by decide) rfl).1
      "topic" rfl,
   ((omitted_custom_fields_kept_as_null [] "\x7b\x7d" "tok" "pid"
      loadsEmptyObj respond200 (by decide) (by decide) (by decide) rfl).2.1
      Json.null Json.null Json.null Json.null Json.null Json.null).1,
   (omitted_custom_fields_kept_as_null [] "\x7b\x7d" "tok" "pid"
      loadsEmptyObj respond200 (by decide) (by decide) (by decide) rfl).2.2.2.1⟩

/-- C5 (amended): usage help with zero requests occurs exactly when the
`--message` flag is absent or its value is empty; every other non-keyword
value is treated as a custom message — a value `json.loads` rejects ends
in a fatal parse error with no request, while a value that parses to a
JSON object (whatever its keys) is built and sent. -/
theorem usage_help_iff_flag_missing_or_empty
    (argsMessage : Option String) (loads : String → Except String Json)
    (token project_id : String) (respond : HttpRequest → HttpResponse) :
    (((main argsMessage loads token project_id respond).output =
        [OutEvent.line usageText] ∧
      (main argsMessage loads token project_id respond).sent = []) ↔
      (argsMessage = none ∨ argsMessage = some "")) ∧
    (∀ s e, argsMessage = some s → s ≠ "" → s ≠ "common-message" →
      s ≠ "override-message" → loads s = Except.error e →
      (main argsMessage loads token project_id respond).sent = []) ∧
    (∀ s fields, argsMessage = some s → s ≠ "" → s ≠ "common-message" →
      s ≠ "override-message" → loads s = Except.ok (Json.obj fields) →
      (main argsMessage loads token project_id respond).sent.length = 1) := by
  refine ⟨⟨?_, ?_⟩, ?_, ?_⟩
  · intro h
    rcases argsMessage with _ | s
    · exact Or.inl rfl
    · by_cases h1 : s = ""
      · exact Or.inr (by rw [h1])
      · exfalso
        obtain ⟨hout, _⟩ := h
        by_cases h2 : s = "common-message"
        · subst h2
          simp [main, _send_fcm_message] at hout
        · by_cases h3 : s = "override-message"
          · subst h3
            simp [main, _send_fcm_message] at hout
          · rcases hp : loads s with e | v
            · simp [main, h1, h2, h3, hp, usageText] at hout
            · rcases v with _ | b | n | st | xs | fs <;>
                simp [main, h1, h2, h3, hp, usageText, _send_fcm_message] at hout
  · intro h
    rcases h with h | h <;> subst h <;> exact ⟨rfl, rfl⟩
  · intro s e ha h1 h2 h3 hp
    subst ha
    simp [main, h1, h2, h3, hp]
  · intro s fields ha h1 h2 h3 hp
    subst ha
    simp [main, h1, h2, h3, hp]

/-- C5 witness: with no `--message` flag, exactly the usage text is
printed and nothing is sent. -/
theorem usage_help_iff_flag_missing_or_empty_witness :
    (main none loadsEmptyObj "tok" "pid" respond200).output =
      [OutEvent.line usageText] ∧
    (main none loadsEmptyObj "tok" "pid" respond200).sent = [] :=
  (usage_help_iff_flag_missing_or_empty none loadsEmptyObj "tok" "pid"
    respond200).1.mpr (Or.inl rfl)

/-- C5 counterexample: the unrecognized value `\x7b\x7d` — a JSON object
with none of the recognized keys — does not print usage help, and a
network request is issued. -/
theorem unrecognized_json_object_still_sent :
    (main (some "\x7b\x7d") loadsEmptyObj "tok" "pid" respond200).sent.length = 1 ∧
    (main (some "\x7b\x7d") loadsEmptyObj "tok" "pid" respond200).output ≠
      [OutEvent.line usageText] := by
  refine ⟨rfl, fun h => ?_⟩
  have h2 := congrArg List.length h
  have h5 : (main (some "\x7b\x7d") loadsEmptyObj "tok" "pid"
      respond200).output.length = 5 := rfl
  rw [h5] at h2
  exact absurd h2 (by decide)
